import Mathlib

/-!
# Verification of the thesis-backend service core

Shallow embedding of the pure logic of the `thesis-backend` repository:
the database sanitizer (`sanitize_for_db`, `prepare_for_supabase` in
`main.py`), the analysis-orchestrator JSON fallback ladder
(`AnalysisService.analyze_paper` / `analyze_citations` /
`analyze_research_gaps` in `services/analysis_service.py`), the similarity
ranker (`get_similar_papers` in `main.py`), and the analyze / batch-analyze
pipelines (`analyze_paper`, `batch_analyze_papers` in `main.py`).

Python values are modelled by the inductive `Value` (JSON-like data plus an
opaque constructor for other Python objects); mapping values are
association lists in insertion order, matching Python dict iteration order.
External collaborators (the OpenAI/Mistral/OCR providers, the Supabase
store, `json.loads`) appear as explicit parameters, so every theorem is
about the repository's own control flow and data shaping.
-/

namespace ThesisBackend

/-- Model of a Python runtime value as it flows through the service:
JSON-like scalars, strings, lists and dicts (dicts are association lists in
insertion order), plus `vobj` for any other Python object; `vobj`'s field
is the object's textual representation and such objects are exactly the
ones `json.dumps` cannot serialize. -/
inductive Value : Type where
  | vnull : Value
  | vbool (b : Bool) : Value
  | vint (n : Int) : Value
  | vstr (s : String) : Value
  | vlist (items : List Value) : Value
  | vdict (fields : List (String × Value)) : Value
  | vobj (descr : String) : Value

/-- The fields of a dict value ([] for non-dicts). -/
def Value.asDict : Value → List (String × Value)
  | .vdict fs => fs
  | _ => []

/-- The items of a list value ([] for non-lists). -/
def Value.asList : Value → List Value
  | .vlist xs => xs
  | _ => []

/-- The regex class `[\x00-\x1F\x7F]` of `sanitize_for_db` (main.py line
74): ASCII control characters, codepoints 0-31 and 127. -/
def isCtlChar (c : Char) : Bool := c.toNat ≤ 31 || c.toNat == 127

/-- `re.sub(r'[\x00-\x1F\x7F]', '', text)` from main.py line 74: delete
every ASCII control character from the string. -/
def stripCtl (s : String) : String := String.mk (s.data.filter (fun c => !isCtlChar c))

mutual

/-- `sanitize_for_db` (main.py lines 68-83): `None` passes through, strings
are scrubbed of control characters, dict values and list items are
sanitized recursively, every other value is returned as is. -/
def sanitize_for_db : Value → Value
  | .vnull => .vnull
  | .vbool b => .vbool b
  | .vint n => .vint n
  | .vstr s => .vstr (stripCtl s)
  | .vlist xs => .vlist (sanitizeItems xs)
  | .vdict fs => .vdict (sanitizeFields fs)
  | .vobj d => .vobj d

/-- The list comprehension `[sanitize_for_db(item) for item in text]`
(main.py line 80). -/
def sanitizeItems : List Value → List Value
  | [] => []
  | x :: xs => sanitize_for_db x :: sanitizeItems xs

/-- The dict comprehension
`{k: sanitize_for_db(v) for k, v in text.items()}` (main.py line 77):
keys are carried over verbatim, values are sanitized. -/
def sanitizeFields : List (String × Value) → List (String × Value)
  | [] => []
  | (k, v) :: fs => (k, sanitize_for_db v) :: sanitizeFields fs

end

mutual

/-- Whether `json.dumps` succeeds on the value: true for the JSON scalars,
strings, and containers of serializable values; false for any other Python
object (`vobj`). -/
def jsonSerializable : Value → Bool
  | .vnull => true
  | .vbool _ => true
  | .vint _ => true
  | .vstr _ => true
  | .vlist xs => jsonSerializableItems xs
  | .vdict fs => jsonSerializableFields fs
  | .vobj _ => false

/-- `json.dumps` succeeds on every item of the list. -/
def jsonSerializableItems : List Value → Bool
  | [] => true
  | x :: xs => jsonSerializable x && jsonSerializableItems xs

/-- `json.dumps` succeeds on every value of the dict. -/
def jsonSerializableFields : List (String × Value) → Bool
  | [] => true
  | (_, v) :: fs => jsonSerializable v && jsonSerializableFields fs

end

mutual

/-- Simplified model of Python `str()` on a value, used where main.py falls
back to `str(sanitized[key])` (line 100); the exact rendering is
irrelevant to the service, only that a plain string results. -/
def pyStr : Value → String
  | .vnull => "None"
  | .vbool b => if b then "True" else "False"
  | .vint n => n.repr
  | .vstr s => s
  | .vlist xs => "[" ++ pyStrItems xs ++ "]"
  | .vdict fs => "\x7b" ++ pyStrFields fs ++ "\x7d"
  | .vobj d => d

/-- Comma-separated rendering of list items. -/
def pyStrItems : List Value → String
  | [] => ""
  | [x] => pyStr x
  | x :: xs => pyStr x ++ ", " ++ pyStrItems xs

/-- Comma-separated rendering of dict entries. -/
def pyStrFields : List (String × Value) → String
  | [] => ""
  | [(k, v)] => "\x27" ++ k ++ "\x27: " ++ pyStr v
  | (k, v) :: fs => "\x27" ++ k ++ "\x27: " ++ pyStr v ++ ", " ++ pyStrFields fs

end

/-- The body of the `for key in sanitized` loop of `prepare_for_supabase`
(main.py lines 93-100) as a function of one field's sanitized value: a
dict or list on which `json.dumps` raises is replaced by `str(...)` of it;
everything else is kept. -/
def fixValue (v : Value) : Value :=
  match v with
  | .vdict _ => if jsonSerializable v then v else .vstr (pyStr v)
  | .vlist _ => if jsonSerializable v then v else .vstr (pyStr v)
  | _ => v

/-- `prepare_for_supabase` (main.py lines 86-102): sanitize the value;
then, when it is a dict, every field whose (sanitized) value is a dict or
list on which `json.dumps` raises is replaced by its textual
representation (keys are untouched — the loop only reassigns
`sanitized[key]`); all other fields are left as sanitized. The function
is total: a serialization failure never propagates. -/
def prepare_for_supabase (data : Value) : Value :=
  match sanitize_for_db data with
  | .vdict fs => .vdict (fs.map (fun kv => (kv.1, fixValue kv.2)))
  | v => v

/-- A character Python's `str.strip()` removes: ASCII whitespace as used by
the strings of this service. -/
def isPySpace (c : Char) : Bool :=
  c == ' ' || c == '\t' || c == '\n' || c == '\r' || c == '\x0b' || c == '\x0c'

/-- Python `str.strip()`: drop leading and trailing whitespace. -/
def pyStrip (s : String) : String :=
  String.mk (((s.data.dropWhile isPySpace).reverse.dropWhile isPySpace).reverse)

/-- Worker for Python `str.split(sep)` with a non-empty separator: splits
at every left-to-right non-overlapping occurrence of `sep`.  The fuel
argument only serves termination; callers pass `length + 1`, which is
always enough since each step consumes at least one character. -/
def splitOnAux (sep : List Char) : Nat → List Char → List Char → List (List Char)
  | 0, rest, acc => [acc.reverse ++ rest]
  | _ + 1, [], acc => [acc.reverse]
  | fuel + 1, c :: rest, acc =>
    if sep.isPrefixOf (c :: rest) then
      acc.reverse :: splitOnAux sep fuel (List.drop sep.length (c :: rest)) []
    else
      splitOnAux sep fuel rest (c :: acc)

/-- Python `s.split(sep)` for a non-empty separator `sep`. -/
def pySplit (s sep : String) : List String :=
  (splitOnAux sep.data (s.data.length + 1) s.data []).map String.mk

/-- Python `sub in s`: `s.split(sub)` has at least two pieces exactly when
`sub` occurs in `s`. -/
def pyContains (s sub : String) : Bool := (pySplit s sub).length ≥ 2

/-- Python `s.endswith(suffix)`. -/
def pyEndsWith (s suffix : String) : Bool := List.isSuffixOf suffix.data s.data

/-- Decimal value of a non-empty all-digit character list. -/
def digitsVal (ds : List Char) : Nat :=
  ds.foldl (fun acc c => acc * 10 + (c.toNat - 48)) 0

/-- Python `int(s)` on a string: strip whitespace, optional sign, then a
non-empty run of decimal digits; anything else raises `ValueError`,
modelled as `none`.  (Underscore digit grouping is not modelled; no string
in this development uses it.) -/
def pyInt (s : String) : Option Int :=
  let core :=
    fun (ds : List Char) =>
      if !ds.isEmpty && ds.all Char.isDigit then some (Int.ofNat (digitsVal ds)) else none
  match (pyStrip s).data with
  | '+' :: ds => core ds
  | '-' :: ds => (core ds).map (fun n => -n)
  | ds => core ds

/-! ## Analysis orchestrator (services/analysis_service.py)

Each of `analyze_paper`, `analyze_citations` and `analyze_research_gaps`
sends a prompt to the provider and then runs the same parse ladder on the
response text (lines 122-174, 222-268, 312-354): try `json.loads` on the
raw response; on `JSONDecodeError`, if the literal "```json" occurs in the
response, extract `content.split("```json")[1].split("```")[0].strip()`
and `json.loads` that (an error here propagates to the enclosing
`except Exception`, which re-raises a wrapped exception); otherwise return
the operation's fixed fallback structure.

`json.loads` is an external library function; it is modelled as an
explicit parameter `jp : String → Option Value` (`none` = raises
`JSONDecodeError`).  The provider call is modelled as the already-received
response, `Except String String` (`Except.error` = the provider raised). -/

/-- The fence marker `"```json"` looked up by the fallback ladder. -/
def jsonFenceOpen : String := "```json"

/-- The closing fence `"```"`. -/
def fenceMarker : String := "```"

/-- `content.split("```json")[1].split("```")[0].strip()` (e.g.
analysis_service.py line 134). -/
def extractFencedBlock (content : String) : String :=
  pyStrip (((pySplit ((pySplit content jsonFenceOpen).getD 1 "") fenceMarker).getD 0 ""))

/-- The parse ladder shared by the three analysis operations, given the
`json.loads` model `jp`, the operation's fallback structure, and the
response text.  `Except.error` is a raised `JSONDecodeError`. -/
def parseLadder (jp : String → Option Value) (fallback : Value) (content : String) :
    Except String Value :=
  match jp content with
  | some v => Except.ok v
  | none =>
    if pyContains content jsonFenceOpen then
      match jp (extractFencedBlock content) with
      | some v => Except.ok v
      | none => Except.error "JSONDecodeError"
    else
      Except.ok fallback

/-- The fixed fallback structure of `analyze_paper`
(analysis_service.py lines 139-174). -/
def defaultPaperAnalysis : Value :=
  .vdict
    [("basic_info", .vdict
        [("title", .vstr "Analysis of document"),
         ("authors", .vlist [.vstr "Not extracted"]),
         ("year_of_publication", .vstr "Not extracted"),
         ("type", .vstr "Not extracted"),
         ("link_to_article", .vstr "Not found")]),
     ("analysis", .vdict
        [("relevance_score", .vint 5),
         ("relevance_explanation", .vstr "Relevance could not be determined"),
         ("main_findings", .vlist [.vstr "Could not extract findings from text"]),
         ("methods", .vdict
            [("methodology_type", .vstr "Not specified"),
             ("specific_methods", .vlist [.vstr "Not extracted"]),
             ("data_collection", .vstr "Not specified"),
             ("analysis_techniques", .vlist [.vstr "Not extracted"])]),
         ("gaps_and_limitations", .vdict
            [("identified_gaps", .vlist [.vstr "Not extracted"]),
             ("limitations", .vlist [.vstr "Not extracted"]),
             ("methodology_limitations", .vlist [.vstr "Not extracted"])])]),
     ("quality_metrics", .vdict
        [("methodology_score", .vint 5),
         ("data_quality_score", .vint 5),
         ("innovation_score", .vint 5),
         ("impact_score", .vint 5)]),
     ("meta_info", .vdict
        [("reviewer_initials", .vstr "N/A"),
         ("review_date", .vstr "Current"),
         ("additional_notes",
          .vlist [.vstr "Analysis failed to produce structured output"])])]

/-- The fixed fallback structure of `analyze_citations`
(analysis_service.py lines 239-268). -/
def defaultCitationAnalysis : Value :=
  .vdict
    [("citation_metrics", .vdict
        [("total_citations", .vint 0),
         ("unique_sources", .vint 0),
         ("year_range", .vstr "Not determined"),
         ("most_cited_authors", .vlist [.vstr "Not extracted"])]),
     ("citation_quality", .vdict
        [("recency", .vdict
            [("score", .vint 5),
             ("analysis", .vstr "Citation dates could not be determined"),
             ("recent_citations", .vint 0)]),
         ("authority", .vdict
            [("score", .vint 5),
             ("key_references", .vlist [.vstr "Not determined"]),
             ("seminal_works", .vlist [.vstr "Not determined"])]),
         ("diversity", .vdict
            [("score", .vint 5),
             ("source_types", .vlist [.vstr "Not determined"]),
             ("field_coverage", .vstr "Not determined")])]),
     ("recommendations", .vdict
        [("missing_citations", .vlist [.vstr "Not determined"]),
         ("citation_improvements", .vlist [.vstr "Not determined"]),
         ("key_papers_to_add", .vlist [.vstr "Not determined"])])]

/-- The fixed fallback structure of `analyze_research_gaps`
(analysis_service.py lines 329-354). -/
def defaultGapAnalysis : Value :=
  .vdict
    [("research_gaps", .vdict
        [("identified_gaps", .vlist [.vstr "Not extracted"]),
         ("priority_levels", .vdict
            [("high_priority", .vlist [.vstr "Not determined"]),
             ("medium_priority", .vlist [.vstr "Not determined"]),
             ("low_priority", .vlist [.vstr "Not determined"])]),
         ("gap_categories", .vdict
            [("methodological", .vlist [.vstr "Not determined"]),
             ("theoretical", .vlist [.vstr "Not determined"]),
             ("empirical", .vlist [.vstr "Not determined"])])]),
     ("future_directions", .vdict
        [("short_term", .vlist [.vstr "Not determined"]),
         ("long_term", .vlist [.vstr "Not determined"]),
         ("interdisciplinary", .vlist [.vstr "Not determined"])]),
     ("implementation", .vdict
        [("required_resources", .vlist [.vstr "Not determined"]),
         ("potential_challenges", .vlist [.vstr "Not determined"]),
         ("suggested_approaches", .vlist [.vstr "Not determined"]),
         ("collaboration_needs", .vlist [.vstr "Not determined"])])]

/-- `AnalysisService.analyze_paper` (analysis_service.py lines 72-178)
given the `json.loads` model and the provider outcome: the whole body sits
in `try/except Exception`, so a provider error or an uncaught
`JSONDecodeError` from the fenced-block parse is re-raised wrapped as
"OpenAI analysis error: ...". -/
def analysis_analyze_paper (jp : String → Option Value) (response : Except String String) :
    Except String Value :=
  match response.bind (parseLadder jp defaultPaperAnalysis) with
  | .ok v => .ok v
  | .error e => .error ("OpenAI analysis error: " ++ e)

/-- `AnalysisService.analyze_citations` (analysis_service.py lines
180-272), identical ladder with its own fallback and wrapper message. -/
def analysis_analyze_citations (jp : String → Option Value) (response : Except String String) :
    Except String Value :=
  match response.bind (parseLadder jp defaultCitationAnalysis) with
  | .ok v => .ok v
  | .error e => .error ("OpenAI citation analysis error: " ++ e)

/-- `AnalysisService.analyze_research_gaps` (analysis_service.py lines
274-358), identical ladder with its own fallback and wrapper message. -/
def analysis_analyze_research_gaps (jp : String → Option Value) (response : Except String String) :
    Except String Value :=
  match response.bind (parseLadder jp defaultGapAnalysis) with
  | .ok v => .ok v
  | .error e => .error ("OpenAI research gap analysis error: " ++ e)

/-! ## Similarity ranker (`get_similar_papers`, main.py lines 466-550)

A candidate row comes from the metadata selection
`id,title,authors,year_of_publication,paper_type,relevance_score,...`; the
two fields that scoring reads via `.get` are `paper_type` and
`year_of_publication`.  `paper_type` is modelled as an optional string
(`none` = key absent, so `.get` yields Python `None`; the `==` against
the source's type never raises whatever the value).  `year_of_publication`
is modelled as an optional `Value`: store selects return every column
including nulls, so the key can be present with a null (or other
non-string) value which `int()` receives as-is — only an absent key falls
back to `"Unknown"`.  `id` stands in for the remaining metadata, which
scoring never reads. -/

structure PaperRow where
  id : String
  paper_type : Option String
  year_of_publication : Option Value

/-- A row annotated with its score, `{**paper, "similarity_score": score}`
(main.py lines 539-542). -/
structure ScoredRow where
  row : PaperRow
  similarity_score : Nat

/-- Whether a value is the string `"Unknown"`: the only way Python's
`year != "Unknown"` comparison is false; any non-string value compares
unequal without raising. -/
def isUnknownStr : Value → Bool
  | .vstr s => s == "Unknown"
  | _ => false

/-- The two ways `int(x)` fails: `ValueError` on an unparseable string
(caught by the ranker's handler), `TypeError` on a non-numeric non-string
value such as `None` (not caught). -/
inductive PyNumError : Type where
  | valueError : PyNumError
  | typeError : PyNumError
deriving DecidableEq

/-- Python `int(x)` on an arbitrary value: strings parse in base 10 or
raise `ValueError`; ints pass through; bools are ints (`False` = 0,
`True` = 1); `None`, mappings, sequences and other plain objects raise
`TypeError`. -/
def pyIntValue : Value → Except PyNumError Int
  | .vstr s =>
    match pyInt s with
    | some n => .ok n
    | none => .error .valueError
  | .vint n => .ok n
  | .vbool b => .ok (if b then 1 else 0)
  | _ => .error .typeError

/-- The year half of the score (main.py lines 524-535) on the actual
lookup results: only when neither value equals the string `"Unknown"` are
the two `int()` conversions attempted inside `try/except ValueError:
pass`, and the point is added when both parse with difference at most 5.
A `ValueError` is swallowed (score contribution 0); a `TypeError` — e.g.
`int(None)` for a present-but-null year — escapes the handler and aborts
the whole endpoint (`Except.error`). -/
def yearScore (source_year paper_year : Value) : Except String Nat :=
  if !isUnknownStr source_year && !isUnknownStr paper_year then
    match pyIntValue source_year with
    | .error .valueError => .ok 0
    | .error .typeError => .error "TypeError"
    | .ok a =>
      match pyIntValue paper_year with
      | .error .valueError => .ok 0
      | .error .typeError => .error "TypeError"
      | .ok b => .ok (if (a - b).natAbs ≤ 5 then 1 else 0)
  else .ok 0

/-- One candidate's score (main.py lines 518-535): start from 0, add 2
when `paper.get("paper_type") == basic_info.get("type")` (plain equality
of the two possibly-`None` lookups), then add the year point — or
propagate the year block's uncaught `TypeError`.  `srcType` is
`basic_info.get("type")` and `srcYear` is
`basic_info.get("year_of_publication", "Unknown")` of the source paper
(again a present null stays null; only an absent key defaults). -/
def similarityScore (srcType : Option String) (srcYear : Value) (p : PaperRow) :
    Except String Nat :=
  let score : Nat := 0
  let score := if p.paper_type == srcType then score + 2 else score
  (yearScore srcYear (p.year_of_publication.getD (.vstr "Unknown"))).map (fun y => score + y)

/-- The scoring loop over the candidates (main.py lines 517-542): each
candidate is annotated with its score; an uncaught exception at any
candidate aborts the endpoint. -/
def scoreCandidates (srcType : Option String) (srcYear : Value) :
    List PaperRow → Except String (List ScoredRow)
  | [] => .ok []
  | p :: ps =>
    match similarityScore srcType srcYear p with
    | .error e => .error e
    | .ok s =>
      match scoreCandidates srcType srcYear ps with
      | .error e => .error e
      | .ok rest => .ok (⟨p, s⟩ :: rest)

/-- Insert into a descending-by-score list, after every earlier element of
greater-or-equal score: the insertion step of a stable descending sort. -/
def insertDesc (x : ScoredRow) : List ScoredRow → List ScoredRow
  | [] => [x]
  | y :: ys =>
    if y.similarity_score ≤ x.similarity_score then x :: y :: ys else y :: insertDesc x ys

/-- Stable sort by `similarity_score` descending, the behaviour of
`similar_papers.sort(key=lambda p: p["similarity_score"], reverse=True)`
(main.py line 545): Python's sort is stable, and `reverse=True` keeps
equal-score elements in input order. -/
def sortByScoreDesc : List ScoredRow → List ScoredRow
  | [] => []
  | x :: xs => insertDesc x (sortByScoreDesc xs)

/-- The scoring-and-sorting core of `get_similar_papers` (main.py lines
514-545): annotate every candidate with its score, then stably sort by
score descending; an uncaught `TypeError` from scoring propagates. -/
def rankCandidates (srcType : Option String) (srcYear : Value) (papers : List PaperRow) :
    Except String (List ScoredRow) :=
  (scoreCandidates srcType srcYear papers).map sortByScoreDesc

/-- `get_similar_papers`' returned list (main.py line 546): the ranked
list cut to the first `limit` entries (or the propagated error, which the
endpoint surfaces as a 500). -/
def get_similar_papers (srcType : Option String) (srcYear : Value) (limit : Nat)
    (papers : List PaperRow) : Except String (List ScoredRow) :=
  (rankCandidates srcType srcYear papers).map (fun l => l.take limit)

/-! ## Analyze / batch-analyze pipelines (main.py lines 168-245, 371-464)

The OCR and analysis providers and the id/clock sources are modelled as an
explicit environment.  The store insert's success is irrelevant (both
pipelines swallow database errors), so it does not appear.  To express
"this file was processed", the batch embedding threads a trace of the
filenames whose contents were read (`await file.read()` is the first
per-file effect after the extension check). -/

structure UploadedFile where
  filename : String
  content : String
deriving DecidableEq

structure PipelineEnv where
  /-- `ocr_service.extract_text` on the file's bytes; `Except.error` is a
  raised extraction exception. -/
  extract_text : String → Except String String
  /-- `analysis_service.analyze_paper` on the sanitized text; the result
  dict's fields.  `Except.error` is a raised wrapped provider error. -/
  analyzePaperOp : String → Except String (List (String × Value))
  /-- `analysis_service.analyze_citations` likewise. -/
  analyzeCitationsOp : String → Except String (List (String × Value))
  /-- `analysis_service.analyze_research_gaps` likewise. -/
  analyzeGapsOp : String → Except String (List (String × Value))
  /-- `str(uuid.uuid4())` for the n-th generated id. -/
  genId : Nat → String
  /-- `datetime.now().isoformat()`. -/
  now : String

/-- The extension whitelist `('.jpg', '.jpeg', '.png', '.pdf')` of
`file.filename.endswith(...)` (main.py lines 173, 389). -/
def allowedExt (filename : String) : Bool :=
  pyEndsWith filename ".jpg" || pyEndsWith filename ".jpeg" ||
    pyEndsWith filename ".png" || pyEndsWith filename ".pdf"

/-- `extracted_text[:5000] if extracted_text else ""` (main.py lines 215
and 432): the empty string for falsy text, else the first 5000
characters. -/
def storedExtractedText (t : String) : String :=
  if t = "" then "" else String.mk (t.data.take 5000)

/-- The `paper_data` record built by both pipelines (main.py lines 202-217
and 419-434) from the generated id, the `basic_info` and `analysis`
sub-dicts of the paper analysis, the three analysis blobs, the sanitized
extracted text, the filename and the timestamp. -/
def mkPaperData (pid : String) (basic_info analysis_info : List (String × Value))
    (filename now : String) (paper_analysis citation_analysis gap_analysis : Value)
    (extracted_text : String) : List (String × Value) :=
  [("id", .vstr pid),
   ("title", (List.lookup "title" basic_info).getD (.vstr "Untitled Paper")),
   ("authors", (List.lookup "authors" basic_info).getD (.vlist [])),
   ("year_of_publication",
     (List.lookup "year_of_publication" basic_info).getD (.vstr "Unknown")),
   ("paper_type", (List.lookup "type" basic_info).getD (.vstr "Unknown")),
   ("relevance_score", (List.lookup "relevance_score" analysis_info).getD (.vint 5)),
   ("file_url", .vstr ("local://" ++ filename)),
   ("paper_analysis", paper_analysis),
   ("citation_analysis", citation_analysis),
   ("gap_analysis", gap_analysis),
   ("created_at", .vstr now),
   ("updated_at", .vstr now),
   ("extracted_text", .vstr (storedExtractedText extracted_text)),
   ("filename", .vstr filename)]

/-- Accumulators of the batch loop (main.py lines 377-378) plus the trace
of filenames whose contents have been read. -/
structure BatchAccum where
  results : List Value
  errors : List Value
  processed : List String

/-- One iteration of the batch loop (main.py lines 386-458): bad extension
appends an error entry and continues without touching the file; otherwise
the file is read (recorded in the trace), extracted, sanitized and
analyzed — any raised error becomes this file's error entry — and on
success the record is prepared, inserted (insert failures are swallowed,
lines 442-444) and a success entry appended. -/
def batchStep (env : PipelineEnv) (f : UploadedFile) (pid : String) (acc : BatchAccum) :
    BatchAccum :=
  if !allowedExt f.filename then
    { acc with errors := acc.errors ++
        [.vdict [("filename", .vstr f.filename), ("error", .vstr "Unsupported file format")]] }
  else
    let acc := { acc with processed := acc.processed ++ [f.filename] }
    let outcome : Except String (List (String × Value)) := do
      let raw ← env.extract_text f.content
      let extracted := stripCtl raw
      let paper_analysis ← env.analyzePaperOp extracted
      let citation_analysis ← env.analyzeCitationsOp extracted
      let gap_analysis ← env.analyzeGapsOp extracted
      let basic_info := ((List.lookup "basic_info" paper_analysis).getD (.vdict [])).asDict
      let analysis_info := ((List.lookup "analysis" paper_analysis).getD (.vdict [])).asDict
      pure (mkPaperData pid basic_info analysis_info f.filename env.now
        (.vdict paper_analysis) (.vdict citation_analysis) (.vdict gap_analysis) extracted)
    match outcome with
    | .error e =>
      { acc with errors := acc.errors ++
          [.vdict [("filename", .vstr f.filename), ("error", .vstr e)]] }
    | .ok paper_data =>
      let _safe_paper_data := prepare_for_supabase (.vdict paper_data)
      let title := (List.lookup "title" paper_data).getD (.vstr "Untitled Paper")
      { acc with results := acc.results ++
          [.vdict [("filename", .vstr f.filename),
                   ("paper_id", .vstr pid),
                   ("title", title),
                   ("success", .vbool true)]] }

/-- The batch loop over the files, numbering each iteration for id
generation. -/
def batchLoop (env : PipelineEnv) : List UploadedFile → Nat → BatchAccum → BatchAccum
  | [], _, acc => acc
  | f :: fs, n, acc => batchLoop env fs (n + 1) (batchStep env f (env.genId n) acc)

/-- The outcome of the batch endpoint: the HTTP response — either an
`HTTPException` `(status, detail)` or the response body — together with
the trace of processed files. -/
structure BatchOutcome where
  response : Except (Nat × String) Value
  processed : List String

/-- `batch_analyze_papers` (main.py lines 371-464): more than 10 files is
rejected with a 400 before the loop ever runs; otherwise the loop
produces the results and errors lists and the summary message. -/
def batch_analyze_papers (env : PipelineEnv) (files : List UploadedFile) : BatchOutcome :=
  if files.length > 10 then
    ⟨.error (400, "Maximum 10 files allowed for batch processing"), []⟩
  else
    let acc := batchLoop env files 0 ⟨[], [], []⟩
    ⟨.ok (.vdict
      [("message", .vstr ("Processed " ++ toString acc.results.length ++
          " papers successfully, " ++ toString acc.errors.length ++ " failures")),
       ("results", .vlist acc.results),
       ("errors", .vlist acc.errors)]), acc.processed⟩

/-! ## Helper lemmas -/

theorem stripCtl_idem (s : String) : stripCtl (stripCtl s) = stripCtl s := by
  simp [stripCtl, List.filter_filter]

theorem sanitizeItems_eq_map (xs : List Value) : sanitizeItems xs = xs.map sanitize_for_db := by
  induction xs with
  | nil => rfl
  | cons x xs ih => simp [sanitizeItems, ih]

theorem sanitizeFields_eq_map (fs : List (String × Value)) :
    sanitizeFields fs = fs.map (fun kv => (kv.1, sanitize_for_db kv.2)) := by
  induction fs with
  | nil => rfl
  | cons kv fs ih => cases kv; simp [sanitizeFields, ih]

mutual

theorem sanitize_for_db_idem : ∀ v, sanitize_for_db (sanitize_for_db v) = sanitize_for_db v
  | .vnull => rfl
  | .vbool _ => rfl
  | .vint _ => rfl
  | .vstr s => by simp [sanitize_for_db, stripCtl_idem]
  | .vlist xs => by simp [sanitize_for_db, sanitizeItems_idem xs]
  | .vdict fs => by simp [sanitize_for_db, sanitizeFields_idem fs]
  | .vobj _ => rfl

theorem sanitizeItems_idem : ∀ xs, sanitizeItems (sanitizeItems xs) = sanitizeItems xs
  | [] => rfl
  | x :: xs => by simp [sanitizeItems, sanitize_for_db_idem x, sanitizeItems_idem xs]

theorem sanitizeFields_idem : ∀ fs, sanitizeFields (sanitizeFields fs) = sanitizeFields fs
  | [] => rfl
  | (k, v) :: fs => by simp [sanitizeFields, sanitize_for_db_idem v, sanitizeFields_idem fs]

end

theorem sanitizeFields_keys (fs : List (String × Value)) :
    (sanitizeFields fs).map Prod.fst = fs.map Prod.fst := by
  simp [sanitizeFields_eq_map]

theorem isCtlChar_eq_decide (c : Char) :
    isCtlChar c = decide (c.toNat ≤ 31 ∨ c.toNat = 127) := by
  by_cases h1 : c.toNat ≤ 31 <;> by_cases h2 : c.toNat = 127 <;>
    simp [isCtlChar, h1, h2]

/-- Characters surviving `stripCtl` are never control characters. -/
theorem not_ctl_of_mem_stripCtl {c : Char} {s : String} (h : c ∈ (stripCtl s).data) :
    isCtlChar c = false := by
  simp only [stripCtl] at h
  have := List.of_mem_filter h
  simpa using this

/-- `stripCtl` fixes any string all of whose characters are clean. -/
theorem stripCtl_eq_self_of_clean {s : String} (h : ∀ c ∈ s.data, isCtlChar c = false) :
    stripCtl s = s := by
  cases s with
  | mk data =>
    simp only [stripCtl]
    congr 1
    exact List.filter_eq_self.mpr (fun c hc => by simp [h c hc])

/-! Sorting lemmas: `insertDesc` is a permutation-preserving insertion that
keeps descending order, and the sort preserves the relative order of
equal-score entries (stability). -/

theorem insertDesc_perm (x : ScoredRow) (l : List ScoredRow) :
    (insertDesc x l).Perm (x :: l) := by
  induction l with
  | nil => simp [insertDesc]
  | cons y ys ih =>
    by_cases h : y.similarity_score ≤ x.similarity_score
    · rw [insertDesc, if_pos h]
    · rw [insertDesc, if_neg h]
      exact List.Perm.trans (List.Perm.cons y ih) (List.Perm.swap x y ys)

theorem sortByScoreDesc_perm (l : List ScoredRow) : (sortByScoreDesc l).Perm l := by
  induction l with
  | nil => simp [sortByScoreDesc]
  | cons x xs ih =>
    exact List.Perm.trans (insertDesc_perm x (sortByScoreDesc xs)) (List.Perm.cons x ih)

theorem insertDesc_pairwise {x : ScoredRow} {l : List ScoredRow}
    (hl : l.Pairwise (fun a b => b.similarity_score ≤ a.similarity_score)) :
    (insertDesc x l).Pairwise (fun a b => b.similarity_score ≤ a.similarity_score) := by
  induction l with
  | nil => simp [insertDesc]
  | cons y ys ih =>
    rcases List.pairwise_cons.mp hl with ⟨hy, hys⟩
    by_cases h : y.similarity_score ≤ x.similarity_score
    · rw [insertDesc, if_pos h]
      refine List.pairwise_cons.mpr ⟨?_, hl⟩
      intro z hz
      rcases List.mem_cons.mp hz with rfl | hz
      · exact h
      · exact le_trans (hy z hz) h
    · rw [insertDesc, if_neg h]
      refine List.pairwise_cons.mpr ⟨?_, ih hys⟩
      intro z hz
      have hmem := (insertDesc_perm x ys).mem_iff.mp hz
      rcases List.mem_cons.mp hmem with rfl | hz'
      · exact le_of_not_le h
      · exact hy z hz'

theorem sortByScoreDesc_pairwise (l : List ScoredRow) :
    (sortByScoreDesc l).Pairwise (fun a b => b.similarity_score ≤ a.similarity_score) := by
  induction l with
  | nil => simp [sortByScoreDesc]
  | cons x xs ih => exact insertDesc_pairwise ih

theorem filter_insertDesc (x : ScoredRow) (l : List ScoredRow) (s : Nat) :
    (insertDesc x l).filter (fun r => r.similarity_score == s)
      = if x.similarity_score == s
          then x :: l.filter (fun r => r.similarity_score == s)
          else l.filter (fun r => r.similarity_score == s) := by
  induction l with
  | nil =>
    by_cases hx : x.similarity_score = s <;>
      simp [insertDesc, List.filter_cons, hx]
  | cons y ys ih =>
    by_cases h : y.similarity_score ≤ x.similarity_score
    · rw [insertDesc, if_pos h]
      by_cases hx : x.similarity_score = s <;>
        simp [List.filter_cons, hx]
    · have hlt : x.similarity_score < y.similarity_score := lt_of_not_le h
      rw [insertDesc, if_neg h]
      by_cases hx : x.similarity_score = s
      · have hy : ¬ (y.similarity_score = s) := by omega
        simp [List.filter_cons, hx, hy, ih]
      · by_cases hy : y.similarity_score = s <;>
          simp [List.filter_cons, hx, hy, ih]

/-- Stability: sorting never reorders the entries of any fixed score. -/
theorem filter_sortByScoreDesc (l : List ScoredRow) (s : Nat) :
    (sortByScoreDesc l).filter (fun r => r.similarity_score == s)
      = l.filter (fun r => r.similarity_score == s) := by
  induction l with
  | nil => rfl
  | cons x xs ih =>
    rw [sortByScoreDesc, filter_insertDesc]
    by_cases hx : x.similarity_score = s <;>
      simp [List.filter_cons, hx, ih]

/-! ## Spec-side definitions

These restate claim wordings independently of the source-derived
definitions above, so the claim theorems compare the two. -/

/-- The score as the claim words it: 2 if the candidate's `paper_type`
equals the source's type, plus 1 if both `year_of_publication` values
parse as integers and their absolute difference is at most 5, else 0. -/
def specSimilarityScore (srcType : Option String) (srcYear : Value) (p : PaperRow) : Nat :=
  (if p.paper_type = srcType then 2 else 0) +
    (match pyIntValue srcYear, pyIntValue (p.year_of_publication.getD (.vstr "Unknown")) with
     | .ok a, .ok b => if (a - b).natAbs ≤ 5 then 1 else 0
     | _, _ => 0)

/-- A mapping or sequence value, as the claim words it. -/
def isContainer : Value → Bool
  | .vdict _ => true
  | .vlist _ => true
  | _ => false

/-- The claim's per-field rule for `prepare_for_supabase`: a sanitized
value that is a mapping or sequence failing JSON serialization is replaced
by its textual representation; every other value is left exactly as
sanitized. -/
def specFixValue (v : Value) : Value :=
  if isContainer v && !jsonSerializable v then .vstr (pyStr v) else v

theorem pyInt_unknown : pyInt "Unknown" = none := by decide

/-- On two string year values the year block never raises and computes
the claim's unguarded formula: a `ValueError` is swallowed to 0, the
`!= "Unknown"` guards are subsumed because `"Unknown"` never parses as an
integer, and strings never produce a `TypeError`. -/
theorem yearScore_on_strings (s t : String) :
    yearScore (.vstr s) (.vstr t)
      = .ok (match pyIntValue (.vstr s), pyIntValue (.vstr t) with
             | .ok a, .ok b => if (a - b).natAbs ≤ 5 then 1 else 0
             | _, _ => 0) := by
  by_cases hs : s = "Unknown"
  · subst hs
    simp [yearScore, isUnknownStr, pyIntValue, pyInt_unknown]
  · have hbs : (s == "Unknown") = false := by simp [hs]
    by_cases ht : t = "Unknown"
    · subst ht
      simp [yearScore, isUnknownStr, hbs, pyIntValue, pyInt_unknown]
    · have hbt : (t == "Unknown") = false := by simp [ht]
      simp only [yearScore, isUnknownStr, hbs, hbt, pyIntValue]
      cases pyInt s <;> cases pyInt t <;> simp

/-- The guarded `try/except` scoring of the source equals the claim's
unguarded formula on every candidate whose year value is a string or
absent, given a string (or absent) source year. -/
theorem similarityScore_eq_spec (srcType : Option String) (srcYear : String) (p : PaperRow)
    (hp : ∃ t, p.year_of_publication.getD (.vstr "Unknown") = .vstr t) :
    similarityScore srcType (.vstr srcYear) p
      = .ok (specSimilarityScore srcType (.vstr srcYear) p) := by
  rcases hp with ⟨t, ht⟩
  have hbeq : (p.paper_type == srcType) = decide (p.paper_type = srcType) := by
    by_cases h : p.paper_type = srcType <;> simp [h]
  simp only [similarityScore, specSimilarityScore, ht, yearScore_on_strings, hbeq]
  by_cases h : p.paper_type = srcType <;>
    cases pyIntValue (Value.vstr srcYear) <;> cases pyIntValue (Value.vstr t) <;>
      simp [h, Except.map]

/-- Under the same string-or-absent year hypothesis the scoring loop
succeeds and annotates every candidate with the claim's score. -/
theorem scoreCandidates_eq_spec (srcType : Option String) (srcYear : String)
    (papers : List PaperRow)
    (h : ∀ p ∈ papers, ∃ t, p.year_of_publication.getD (.vstr "Unknown") = .vstr t) :
    scoreCandidates srcType (.vstr srcYear) papers
      = .ok (papers.map (fun p =>
          ScoredRow.mk p (specSimilarityScore srcType (.vstr srcYear) p))) := by
  induction papers with
  | nil => rfl
  | cons p ps ih =>
    have hp := h p (List.mem_cons_self p ps)
    have hps := ih (fun q hq => h q (List.mem_cons_of_mem p hq))
    simp [scoreCandidates, similarityScore_eq_spec srcType srcYear p hp, hps]

/-- The per-field fixup inside `prepare_for_supabase` agrees pointwise
with the claim's rule. -/
theorem fixValue_eq_spec (v : Value) : fixValue v = specFixValue v := by
  cases v <;>
    simp only [fixValue, specFixValue, isContainer, jsonSerializable, Bool.true_and,
      Bool.false_and, Bool.not_eq_true', if_false, if_true] <;>
    split <;> simp_all

/-- `List.lookup` commutes with a value-only map of an association
list. -/
theorem lookup_map_values {β : Type} (g : Value → β) (k : String)
    (fs : List (String × Value)) :
    List.lookup k (fs.map (fun kv => (kv.1, g kv.2))) = (List.lookup k fs).map g := by
  induction fs with
  | nil => rfl
  | cons kv fs ih =>
    rcases kv with ⟨k', v⟩
    by_cases h : k = k'
    · subst h; simp [List.lookup]
    · have hb : (k == k') = false := by simp [h]
      simp [List.lookup, hb, ih]

theorem storedExtractedText_eq_take (t : String) :
    storedExtractedText t = String.mk (t.data.take 5000) := by
  by_cases h : t = ""
  · subst h; rfl
  · simp [storedExtractedText, h]

/-- Re-sanitizing the stored prefix of an already-sanitized text changes
nothing: its characters are already clean. -/
theorem stripCtl_storedExtractedText (raw : String) :
    stripCtl (storedExtractedText (stripCtl raw)) = storedExtractedText (stripCtl raw) := by
  apply stripCtl_eq_self_of_clean
  intro c hc
  rw [storedExtractedText_eq_take] at hc
  exact not_ctl_of_mem_stripCtl (List.take_subset _ _ hc)

/-! ## Claim theorems -/

/-- C4: the sanitizer is idempotent — for every input value of any nesting
of scalars, strings, mappings and sequences,
`sanitize_for_db (sanitize_for_db x) = sanitize_for_db x`. -/
theorem claim_sanitize_idempotent (v : Value) :
    sanitize_for_db (sanitize_for_db v) = sanitize_for_db v :=
  sanitize_for_db_idem v

/-- C5: `sanitize_for_db` is shape-preserving — every string has all ASCII
control characters (codepoints 0-31 and 127) deleted, mappings are
sanitized value-by-value preserving the key list, sequences element-for-
element preserving order and length, non-string non-container scalars are
unchanged, and null maps to null. -/
theorem claim_sanitize_shape_contract :
    (∀ s : String, sanitize_for_db (.vstr s)
        = .vstr (String.mk (s.data.filter (fun c => !(decide (c.toNat ≤ 31 ∨ c.toNat = 127))))))
  ∧ (∀ fs : List (String × Value),
      sanitize_for_db (.vdict fs) = .vdict (fs.map (fun kv => (kv.1, sanitize_for_db kv.2)))
      ∧ ((sanitize_for_db (.vdict fs)).asDict).map Prod.fst = fs.map Prod.fst)
  ∧ (∀ xs : List Value,
      sanitize_for_db (.vlist xs) = .vlist (xs.map sanitize_for_db)
      ∧ ((sanitize_for_db (.vlist xs)).asList).length = xs.length)
  ∧ sanitize_for_db .vnull = .vnull
  ∧ (∀ n : Int, sanitize_for_db (.vint n) = .vint n)
  ∧ (∀ b : Bool, sanitize_for_db (.vbool b) = .vbool b)
  ∧ (∀ d : String, sanitize_for_db (.vobj d) = .vobj d) := by
  refine ⟨?_, ?_, ?_, rfl, fun _ => rfl, fun _ => rfl, fun _ => rfl⟩
  · intro s
    simp only [sanitize_for_db, stripCtl]
    congr 1
    congr 1
    apply List.filter_congr
    intro c _
    rw [isCtlChar_eq_decide]
  · intro fs
    refine ⟨by simp [sanitize_for_db, sanitizeFields_eq_map], ?_⟩
    simp [sanitize_for_db, Value.asDict, sanitizeFields_keys]
  · intro xs
    refine ⟨by simp [sanitize_for_db, sanitizeItems_eq_map], ?_⟩
    simp [sanitize_for_db, Value.asList, sanitizeItems_eq_map]

/-- C10: `sanitize_for_db` never alters mapping keys — every key is
carried over verbatim, even a key containing ASCII control characters;
only values are scrubbed (shown on a key holding NUL and unit-separator
characters). -/
theorem claim_sanitize_keys_verbatim :
    (∀ fs : List (String × Value),
        ((sanitize_for_db (.vdict fs)).asDict).map Prod.fst = fs.map Prod.fst)
  ∧ sanitize_for_db (.vdict [("k\x00ey\x1F", .vstr "v\x00al")])
      = .vdict [("k\x00ey\x1F", .vstr "val")] := by
  constructor
  · intro fs
    simp [sanitize_for_db, Value.asDict, sanitizeFields_keys]
  · rfl

/-- C6: `prepare_for_supabase` never raises on a non-serializable nested
field (it is a total function of the input value); on every mapping input
each field whose sanitized value is a mapping or sequence failing JSON
serialization is replaced by its textual representation, and every other
field is left exactly as sanitized, keys unchanged. -/
theorem claim_prepare_field_fallback (fs : List (String × Value)) :
    (prepare_for_supabase (.vdict fs)).asDict
        = (sanitizeFields fs).map (fun kv => (kv.1, specFixValue kv.2))
  ∧ ((prepare_for_supabase (.vdict fs)).asDict).map Prod.fst = fs.map Prod.fst := by
  have h : (prepare_for_supabase (.vdict fs)).asDict
      = (sanitizeFields fs).map (fun kv => (kv.1, fixValue kv.2)) := by
    simp [prepare_for_supabase, sanitize_for_db, Value.asDict]
  constructor
  · rw [h]
    exact List.map_congr_left (fun kv _ => by rw [fixValue_eq_spec])
  · rw [h]
    have : ((sanitizeFields fs).map (fun kv => (kv.1, fixValue kv.2))).map Prod.fst
        = (sanitizeFields fs).map Prod.fst := by
      simp [List.map_map, Function.comp]
    rw [this, sanitizeFields_keys]

/-- C9: when both the source's type and a candidate's `paper_type` are
absent, the missing-value defaults (`None`) compare equal and the
type-match bonus of 2 is still awarded: whatever the year block yields,
2 is added to it (and the score is exactly 2 when the years cannot
contribute). -/
theorem claim_missing_types_still_match :
    (∀ (srcYear : Value) (idv : String) (yr : Option Value),
        similarityScore none srcYear ⟨idv, none, yr⟩
          = (yearScore srcYear (yr.getD (.vstr "Unknown"))).map (fun y => 2 + y))
  ∧ similarityScore none (.vstr "Unknown") ⟨"p", none, none⟩ = .ok 2 := by
  constructor
  · intro srcYear idv yr
    simp [similarityScore]
  · rfl

/-- The candidate the ranker's `except ValueError` cannot protect: its
`year_of_publication` key is present but null, as a store row (or an
analysis blob with `"year_of_publication": null`) can be. -/
def nullYearRow : PaperRow := ⟨"pN", some "A", some .vnull⟩

/-- C2 counterexample: on a candidate whose `year_of_publication` is a
present null, `int(None)` raises `TypeError`, which `except ValueError`
does not catch — scoring aborts and the endpoint raises instead of giving
the candidate a year contribution of 0, refuting "never raising on
unparseable years" (the null year indeed does not parse as an integer,
third conjunct). -/
theorem claim_similarity_never_raising_refuted :
    similarityScore (some "A") (.vstr "2020") nullYearRow = .error "TypeError"
  ∧ get_similar_papers (some "A") (.vstr "2020") 5 [nullYearRow] = .error "TypeError"
  ∧ pyIntValue .vnull = .error .typeError :=
  ⟨rfl, rfl, rfl⟩

/-- C2 amended: on every source paper and candidate list whose
`year_of_publication` values are strings or absent (absent defaulting to
"Unknown") — the only shape the `except ValueError` handler accounts
for — the ranker never raises: it scores each candidate by the claim's
formula (2 for a type match plus 1 for year strings that both parse as
integers at distance at most 5, unparseable year strings contributing 0),
sorts descending by score with equal-score candidates kept in input order
(stability, stated as: the sub-list at each score value is exactly the
input's sub-list at that score), and returns the first `limit` entries,
each annotated with its score.  A present non-string year value instead
raises an uncaught `TypeError` (see the counterexample). -/
theorem claim_similarity_ranker_contract (srcType : Option String) (srcYear : String)
    (limit : Nat) (papers : List PaperRow)
    (hyears : ∀ p ∈ papers, ∃ t, p.year_of_publication.getD (.vstr "Unknown") = .vstr t) :
    rankCandidates srcType (.vstr srcYear) papers
        = .ok (sortByScoreDesc (papers.map (fun p =>
            ScoredRow.mk p (specSimilarityScore srcType (.vstr srcYear) p))))
  ∧ get_similar_papers srcType (.vstr srcYear) limit papers
        = .ok ((sortByScoreDesc (papers.map (fun p =>
            ScoredRow.mk p (specSimilarityScore srcType (.vstr srcYear) p)))).take limit)
  ∧ (sortByScoreDesc (papers.map (fun p =>
        ScoredRow.mk p (specSimilarityScore srcType (.vstr srcYear) p)))).Pairwise
      (fun a b => b.similarity_score ≤ a.similarity_score)
  ∧ (∀ s : Nat,
      (sortByScoreDesc (papers.map (fun p =>
          ScoredRow.mk p (specSimilarityScore srcType (.vstr srcYear) p)))).filter
          (fun r => r.similarity_score == s)
        = (papers.map (fun p =>
            ScoredRow.mk p (specSimilarityScore srcType (.vstr srcYear) p))).filter
            (fun r => r.similarity_score == s))
  ∧ (sortByScoreDesc (papers.map (fun p =>
        ScoredRow.mk p (specSimilarityScore srcType (.vstr srcYear) p)))).Perm
      (papers.map (fun p => ScoredRow.mk p (specSimilarityScore srcType (.vstr srcYear) p)))
  ∧ (∀ e ∈ (sortByScoreDesc (papers.map (fun p =>
        ScoredRow.mk p (specSimilarityScore srcType (.vstr srcYear) p)))).take limit,
      e.similarity_score = specSimilarityScore srcType (.vstr srcYear) e.row) := by
  have hscore := scoreCandidates_eq_spec srcType srcYear papers hyears
  have hperm := sortByScoreDesc_perm (papers.map (fun p =>
    ScoredRow.mk p (specSimilarityScore srcType (.vstr srcYear) p)))
  refine ⟨?_, ?_, sortByScoreDesc_pairwise _, ?_, hperm, ?_⟩
  · rw [rankCandidates, hscore]
    rfl
  · rw [get_similar_papers, rankCandidates, hscore]
    rfl
  · intro s
    rw [filter_sortByScoreDesc]
  · intro e he
    have he' := List.take_subset _ _ he
    have hm := hperm.mem_iff.mp he'
    rcases List.mem_map.mp hm with ⟨p, _, rfl⟩
    rfl

/-- Witness for C2's amended contract: a concrete all-string-year
candidate list satisfies the hypothesis, and the ranked result is the ok
of the spec-scored, stably sorted list. -/
theorem claim_similarity_ranker_contract_witness :
    rankCandidates (some "A") (.vstr "1999") [⟨"w1", some "A", some (.vstr "2001")⟩]
      = .ok (sortByScoreDesc ([(⟨"w1", some "A", some (.vstr "2001")⟩ : PaperRow)].map
          (fun p => ScoredRow.mk p (specSimilarityScore (some "A") (.vstr "1999") p)))) :=
  (claim_similarity_ranker_contract (some "A") "1999" 1
    [⟨"w1", some "A", some (.vstr "2001")⟩]
    (by
      intro p hp
      rw [List.mem_singleton] at hp
      subst hp
      exact ⟨"2001", rfl⟩)).1

/-- The three candidates of the spec's similarity example (source type
"A", source year "2020"). -/
def exampleCandidateA : PaperRow := ⟨"p1", some "A", some (.vstr "2021")⟩

/-- Second example candidate: type "B", year 2020. -/
def exampleCandidateB : PaperRow := ⟨"p2", some "B", some (.vstr "2020")⟩

/-- Third example candidate: type "A", year 2030. -/
def exampleCandidateC : PaperRow := ⟨"p3", some "A", some (.vstr "2030")⟩

/-- C3 counterexample: on the spec's example the computed scores are
[3, 1, 2], not [3, 0, 2] — the type-B candidate earns the year point
(|2020 - 2020| ≤ 5), so its score is 1, not 0. -/
theorem claim_similarity_example_refuted :
    [exampleCandidateA, exampleCandidateB, exampleCandidateC].map
        (similarityScore (some "A") (.vstr "2020")) ≠ [.ok 3, .ok 0, .ok 2]
  ∧ similarityScore (some "A") (.vstr "2020") exampleCandidateB = .ok 1 := by
  have h1 : [exampleCandidateA, exampleCandidateB, exampleCandidateC].map
      (similarityScore (some "A") (.vstr "2020")) = [.ok 3, .ok 1, .ok 2] := rfl
  constructor
  · intro h
    rw [h1] at h
    simp at h
  · rfl

/-- C3 amended: on the example the scores are [3, 1, 2], and the returned
order is descending by score — first, third, then second candidate — with
input order preserved among equal scores (no tie occurs here). -/
theorem claim_similarity_example_scores :
    [exampleCandidateA, exampleCandidateB, exampleCandidateC].map
        (similarityScore (some "A") (.vstr "2020")) = [.ok 3, .ok 1, .ok 2]
  ∧ rankCandidates (some "A") (.vstr "2020")
        [exampleCandidateA, exampleCandidateB, exampleCandidateC]
      = .ok [⟨exampleCandidateA, 3⟩, ⟨exampleCandidateC, 2⟩, ⟨exampleCandidateB, 1⟩]
  ∧ get_similar_papers (some "A") (.vstr "2020") 5
        [exampleCandidateA, exampleCandidateB, exampleCandidateC]
      = .ok [⟨exampleCandidateA, 3⟩, ⟨exampleCandidateC, 2⟩, ⟨exampleCandidateB, 1⟩] :=
  ⟨rfl, rfl, rfl⟩

/-- An instance of the `json.loads` model for concrete inputs: the parse
that fails everywhere. It agrees with `json.loads` on every string it is
applied to below (none of them is valid JSON). -/
def jpNone : String → Option Value := fun _ => none

/-- C1 counterexample: a response whose raw text is not JSON and whose
fenced "```json" block also fails to parse does NOT yield the fixed
default structure — the inner `json.loads` error escapes to the outer
handler and `analyze_paper` raises the wrapped provider-error instead.
The last three conjuncts exhibit that the claim's premise holds at this
input. -/
theorem claim_analysis_fallback_refuted :
    analysis_analyze_paper jpNone (.ok "```json\nnot json\n```")
        = .error "OpenAI analysis error: JSONDecodeError"
  ∧ analysis_analyze_paper jpNone (.ok "```json\nnot json\n```")
        ≠ .ok defaultPaperAnalysis
  ∧ jpNone "```json\nnot json\n```" = none
  ∧ pyContains "```json\nnot json\n```" jsonFenceOpen = true
  ∧ jpNone (extractFencedBlock "```json\nnot json\n```") = none := by
  have h1 : analysis_analyze_paper jpNone (.ok "```json\nnot json\n```")
      = .error "OpenAI analysis error: JSONDecodeError" := rfl
  exact ⟨h1, by rw [h1]; exact fun h => Except.noConfusion h, rfl, rfl, rfl⟩

/-- C1 amended: when the raw response fails to parse as JSON, each of the
three analysis operations returns its fixed default structure exactly when
the response contains no "```json" fence marker; when a fence marker is
present but the extracted block also fails to parse, the operation
instead raises its wrapped provider-error exception — so a parse failure
can surface only in that wrapped form. -/
theorem claim_analysis_fallback_contract (jp : String → Option Value) (content : String)
    (hraw : jp content = none) :
    (pyContains content jsonFenceOpen = false →
        analysis_analyze_paper jp (.ok content) = .ok defaultPaperAnalysis
      ∧ analysis_analyze_citations jp (.ok content) = .ok defaultCitationAnalysis
      ∧ analysis_analyze_research_gaps jp (.ok content) = .ok defaultGapAnalysis)
  ∧ (pyContains content jsonFenceOpen = true →
      jp (extractFencedBlock content) = none →
        analysis_analyze_paper jp (.ok content)
            = .error "OpenAI analysis error: JSONDecodeError"
      ∧ analysis_analyze_citations jp (.ok content)
            = .error "OpenAI citation analysis error: JSONDecodeError"
      ∧ analysis_analyze_research_gaps jp (.ok content)
            = .error "OpenAI research gap analysis error: JSONDecodeError") := by
  constructor
  · intro hf
    refine ⟨?_, ?_, ?_⟩ <;>
      simp [analysis_analyze_paper, analysis_analyze_citations,
        analysis_analyze_research_gaps, Except.bind, parseLadder, hraw, hf]
  · intro ht hext
    refine ⟨?_, ?_, ?_⟩ <;>
      simp [analysis_analyze_paper, analysis_analyze_citations,
        analysis_analyze_research_gaps, Except.bind, parseLadder, hraw, ht, hext]

/-- Witness for C1's amended contract: a plain non-JSON unfenced response
satisfies the hypothesis, and `analyze_paper` returns the fixed default
structure on it. -/
theorem claim_analysis_fallback_contract_witness :
    jpNone "plain text" = none
  ∧ analysis_analyze_paper jpNone (.ok "plain text") = .ok defaultPaperAnalysis :=
  ⟨rfl, ((claim_analysis_fallback_contract jpNone "plain text" rfl).1 rfl).1⟩

/-- C7 counterexample: with full (sanitized) extracted text "abc" — fewer
than 5000 characters — the record prepared for storage holds exactly
"abc": the stored `extracted_text` IS the full extracted text, refuting
"never the full extracted text". -/
theorem claim_extracted_text_full_refuted :
    List.lookup "extracted_text"
        ((prepare_for_supabase (.vdict (mkPaperData "pid-1" [] [] "f.pdf" "t0"
            (.vdict []) (.vdict []) (.vdict []) (stripCtl "abc")))).asDict)
        = some (.vstr "abc")
  ∧ stripCtl "abc" = "abc"
  ∧ storedExtractedText (stripCtl "abc") = stripCtl "abc" :=
  ⟨rfl, rfl, rfl⟩

/-- C7 amended: in every paper record built by the analyze / batch-analyze
pipelines (which construct it from the already-sanitized extracted text
and prepare it for storage), the stored `extracted_text` field is the
prefix of the full extracted text truncated to at most 5000 characters;
it equals the full text exactly when that text has at most 5000
characters. -/
theorem claim_extracted_text_truncated (pid : String)
    (basic_info analysis_info : List (String × Value)) (filename now : String)
    (pa ca ga : Value) (raw : String) :
    List.lookup "extracted_text"
        ((prepare_for_supabase (.vdict (mkPaperData pid basic_info analysis_info filename now
            pa ca ga (stripCtl raw)))).asDict)
        = some (.vstr (storedExtractedText (stripCtl raw)))
  ∧ (storedExtractedText (stripCtl raw)).data = (stripCtl raw).data.take 5000
  ∧ (storedExtractedText (stripCtl raw)).length ≤ 5000
  ∧ (∃ rest, (stripCtl raw).data = (storedExtractedText (stripCtl raw)).data ++ rest) := by
  have hprep : ∀ fs : List (String × Value),
      (prepare_for_supabase (.vdict fs)).asDict
        = (fs.map (fun kv => (kv.1, sanitize_for_db kv.2))).map
            (fun kv => (kv.1, fixValue kv.2)) := by
    intro fs
    simp [prepare_for_supabase, sanitize_for_db, Value.asDict, sanitizeFields_eq_map]
  refine ⟨?_, ?_, ?_, ?_⟩
  · rw [hprep, lookup_map_values, lookup_map_values]
    have h2 : List.lookup "extracted_text"
        (mkPaperData pid basic_info analysis_info filename now pa ca ga (stripCtl raw))
        = some (.vstr (storedExtractedText (stripCtl raw))) := rfl
    rw [h2]
    simp [sanitize_for_db, fixValue, stripCtl_storedExtractedText]
  · rw [storedExtractedText_eq_take]
  · rw [storedExtractedText_eq_take]
    simp
  · refine ⟨(stripCtl raw).data.drop 5000, ?_⟩
    rw [storedExtractedText_eq_take]
    exact (List.take_append_drop 5000 (stripCtl raw).data).symm

/-- C8: a batch-analyze request with more than 10 files is rejected with a
400 before the loop runs: the response is the 400 error and the trace of
files whose contents were read is empty — no file is read, extracted or
analyzed. -/
theorem claim_batch_over_limit_rejected (env : PipelineEnv) (files : List UploadedFile)
    (h : files.length > 10) :
    (batch_analyze_papers env files).response
        = .error (400, "Maximum 10 files allowed for batch processing")
  ∧ (batch_analyze_papers env files).processed = [] := by
  simp [batch_analyze_papers, h]

/-- A concrete pipeline environment for witnesses: every provider call
succeeds trivially. -/
def trivialEnv : PipelineEnv where
  extract_text := fun _ => .ok ""
  analyzePaperOp := fun _ => .ok []
  analyzeCitationsOp := fun _ => .ok []
  analyzeGapsOp := fun _ => .ok []
  genId := fun _ => "id"
  now := "t0"

/-- Witness for C8: eleven uploaded files trip the guard, and the
endpoint returns the 400 with an empty processed trace. -/
theorem claim_batch_over_limit_rejected_witness :
    (List.replicate 11 (UploadedFile.mk "a.pdf" "")).length > 10
  ∧ ((batch_analyze_papers trivialEnv (List.replicate 11 (UploadedFile.mk "a.pdf" ""))).response
        = .error (400, "Maximum 10 files allowed for batch processing")
    ∧ (batch_analyze_papers trivialEnv
        (List.replicate 11 (UploadedFile.mk "a.pdf" ""))).processed = []) :=
  ⟨by decide,
    claim_batch_over_limit_rejected trivialEnv (List.replicate 11 (UploadedFile.mk "a.pdf" ""))
      (by decide)⟩

end ThesisBackend
